import Mathlib

set_option linter.unusedVariables false

/-!
Shallow embedding of `ValidationCases/Automation.py` (class `SU2Automation`).

The filesystem is modelled explicitly: a directory is a list of entries in
the order `Path.iterdir` enumerates them (the OS enumeration order, which
`iterdir` does not sort).  `pathlib.Path.glob` with a `*<ext>` pattern
matches every entry whose name ends with `<ext>` (pathlib's glob, unlike the
`glob` module, does not exclude dot-files), and a literal pattern matches the
exact name.  External processes (the SU2 solver, the Plot.py interpreter) are
opaque: their observable result (exit code / timeout, captured output) and
the files they leave behind are parameters of the embedded functions.
-/

namespace SU2Automation

/-- One entry of a directory as `Path.iterdir` yields it: a plain file, or a
sub-directory together with the names of the entries it contains. -/
inductive Entry where
  | file (name : String) : Entry
  | dir (name : String) (contents : List String) : Entry
deriving DecidableEq, Repr

/-- The name of a directory entry. -/
def Entry.name : Entry → String
  | .file n => n
  | .dir n _ => n

/-- A configuration directory: its entries in `iterdir` enumeration order. -/
structure ConfigDir where
  entries : List Entry
deriving DecidableEq, Repr

/-- A mesh directory candidate: its name and the names of its entries. -/
structure MeshDir where
  name : String
  files : List String
deriving DecidableEq, Repr

/-- `name.startswith('.')`, computed on the character list so that concrete
instances reduce in the kernel. -/
def isHidden (n : String) : Bool :=
  match n.data with
  | [] => false
  | c :: _ => c == '.'

/-- `name.endswith(ext)`, computed on the character list. -/
def strEndsWith (n ext : String) : Bool :=
  List.isSuffixOf ext.data n.data

/-- `self.mesh_extensions = ('.su2', '.mesh', '.msh')`. -/
def mesh_extensions : List String := [".su2", ".mesh", ".msh"]

/-- `self.restart_extensions = ('.dat', '.csv')`. -/
def restart_extensions : List String := [".dat", ".csv"]

/-- `mesh_dir.glob("*" ++ ext)`: the entry names ending with `ext`
(pathlib glob translates `*<ext>` to a regex that also matches dot-files). -/
def globExt (files : List String) (ext : String) : List String :=
  files.filter (fun n => strEndsWith n ext)

/-- `mesh_dir.glob(pat)` for a wildcard-free pattern: exact-name matches. -/
def globName (files : List String) (pat : String) : List String :=
  files.filter (fun n => n == pat)

/-- `len(list(mesh_dir.glob("Config.cfg")))`. -/
def cfgCount (files : List String) : Nat :=
  (globName files "Config.cfg").length

/-- `len([f for ext in self.mesh_extensions for f in mesh_dir.glob("*"+ext)])`. -/
def meshCount (files : List String) : Nat :=
  (mesh_extensions.flatMap (fun ext => globExt files ext)).length

/-- `len([f for ext in self.restart_extensions for f in mesh_dir.glob("*"+ext)])`. -/
def restartCount (files : List String) : Nat :=
  (restart_extensions.flatMap (fun ext => globExt files ext)).length

/-- The three per-mesh-directory checks of `validate_directory_structure`
(lines 47-65): exactly one `Config.cfg`, exactly one mesh file, exactly one
restart file.  Any failing check makes the whole validation return
`(False, [])`. -/
def meshDirOk (d : MeshDir) : Bool :=
  cfgCount d.files == 1 && meshCount d.files == 1 && restartCount d.files == 1

/-- `(config_dir / "Plot.py").exists()`: some entry (file or directory) of
the configuration directory is named `Plot.py`. -/
def hasPlotPy (c : ConfigDir) : Bool :=
  c.entries.any (fun e => e.name == "Plot.py")

/-- `[d for d in config_dir.iterdir() if d.is_dir() and not
d.name.startswith('.')]`: the candidate mesh directories, in enumeration
order. -/
def meshDirsOf (c : ConfigDir) : List MeshDir :=
  c.entries.filterMap (fun e =>
    match e with
    | .dir n fs => if isHidden n then none else some ⟨n, fs⟩
    | .file _ => none)

/-- The `for mesh_dir in mesh_dirs` loop of `validate_directory_structure`:
on the first directory failing a check it returns `(False, [])`; otherwise
every directory is appended to `valid_mesh_dirs`. -/
def validateMeshDirs : List MeshDir → Bool × List MeshDir
  | [] => (true, [])
  | d :: rest =>
    if meshDirOk d then
      match validateMeshDirs rest with
      | (true, vs) => (true, d :: vs)
      | (false, _) => (false, [])
    else (false, [])

/-- `SU2Automation.validate_directory_structure` (lines 29-71): requires
`Plot.py` in the configuration directory, a non-empty set of non-hidden
sub-directories, and the strict per-directory checks; returns the validated
mesh directories in enumeration order. -/
def validate_directory_structure (c : ConfigDir) : Bool × List MeshDir :=
  if !hasPlotPy c then (false, [])
  else if (meshDirsOf c).isEmpty then (false, [])
  else validateMeshDirs (meshDirsOf c)

/-- The observable result of `subprocess.run(["SU2_CFD", cfg], check=True,
timeout=...)`: normal completion with an exit code (`check=True` raises
`CalledProcessError` on a non-zero code) or `TimeoutExpired`, whose `stdout`
attribute may be absent (`None`) or empty. -/
inductive ProcResult where
  | completed (exitCode : Nat) (stdout stderr : String) : ProcResult
  | timedOut (stdout : Option String) : ProcResult
deriving DecidableEq, Repr

/-- The observable behaviour of one call to `run_su2_simulation`: whether the
external solver process was launched, which log files the runner wrote into
the mesh directory, and the returned boolean. -/
structure RunResult where
  solverLaunched : Bool
  logsWritten : List String
  success : Bool
deriving DecidableEq, Repr

/-- `SU2Automation.run_su2_simulation` (lines 73-116).  `meshFiles` is the
mesh directory's content when the call starts; `filesAfter` is its content
after the solver process has finished (what the artifact glob observes,
before the runner's own log write).  The function computes
`cfg_file = mesh_dir / "Config.cfg"` and immediately launches the solver —
there is no branch on the directory's content before `subprocess.run`.
On exit 0 it writes `su2_output.log`, then succeeds iff
`glob("*.vtu") + glob("*.csv")` is non-empty; on `CalledProcessError` it
writes `su2_error.log`; on `TimeoutExpired` it writes `su2_timeout.log` only
when `e.stdout` is present and non-empty (`if hasattr(e, 'stdout') and
e.stdout`). -/
def run_su2_simulation (meshFiles : List String) (res : ProcResult)
    (filesAfter : List String) : RunResult :=
  match res with
  | .completed 0 _stdout _stderr =>
    let afterLog := filesAfter ++ ["su2_output.log"]
    let output_files := globExt afterLog ".vtu" ++ globExt afterLog ".csv"
    { solverLaunched := true
      logsWritten := ["su2_output.log"]
      success := !output_files.isEmpty }
  | .completed (_ + 1) _stdout _stderr =>
    { solverLaunched := true
      logsWritten := ["su2_error.log"]
      success := false }
  | .timedOut stdout =>
    { solverLaunched := true
      logsWritten :=
        match stdout with
        | some s => if s == "" then [] else ["su2_timeout.log"]
        | none => []
      success := false }

/-- The observable result of `subprocess.run([sys.executable, plot_script],
check=True)` (no timeout is passed for the plot step). -/
inductive PlotProcResult where
  | completed (exitCode : Nat) (stdout stderr : String) : PlotProcResult
deriving DecidableEq, Repr

/-- The observable behaviour of one call to `run_plot_script`. -/
structure PlotResult where
  logsWritten : List String
  success : Bool
deriving DecidableEq, Repr

/-- `config_dir.glob("*" ++ ext)` over directory entries (files and
sub-directories alike, non-recursive): entries whose name ends with `ext`. -/
def globEntriesExt (entries : List Entry) (ext : String) : List Entry :=
  entries.filter (fun e => strEndsWith e.name ext)

/-- `SU2Automation.run_plot_script` (lines 118-150).  `entriesAfter` is the
configuration directory's content after the plotting process has finished.
On exit 0 it writes `plot_output.log`, then succeeds iff
`config_dir.glob("*.png") + config_dir.glob("*.pdf")` — a non-recursive,
top-level glob — is non-empty; on `CalledProcessError` it writes
`plot_error.log` and fails. -/
def run_plot_script (res : PlotProcResult) (entriesAfter : List Entry) :
    PlotResult :=
  match res with
  | .completed 0 _stdout _stderr =>
    let afterLog := entriesAfter ++ [Entry.file "plot_output.log"]
    let plot_files := globEntriesExt afterLog ".png" ++ globEntriesExt afterLog ".pdf"
    { logsWritten := ["plot_output.log"]
      success := !plot_files.isEmpty }
  | .completed (_ + 1) _stdout _stderr =>
    { logsWritten := ["plot_error.log"]
      success := false }

/-- The `for mesh_dir in mesh_dirs` loop of `process_configuration`
(lines 161-169): runs the solver on each directory in order; on the first
failing run it returns `False` immediately, executing no later directory.
`outcome d` abstracts the boolean `run_su2_simulation` returns for mesh
directory `d` (the external solver's behaviour there); the second component
is the list of directory names the solver was invoked on, in order — the
complete per-directory record the code produces. -/
def process_mesh_dirs (outcome : String → Bool) :
    List MeshDir → Bool × List String
  | [] => (true, [])
  | d :: rest =>
    if outcome d.name then
      let r := process_mesh_dirs outcome rest
      (r.1, d.name :: r.2)
    else (false, [d.name])

/-- `SU2Automation.process_configuration` (lines 152-177): validates the
directory structure (returning `False` with no solver launched when
validation fails), runs the solver over the validated mesh directories with
early abort, and — when every simulation succeeded — returns the result of
`run_plot_script` (abstracted by `plotOk`).  The second component is the
list of mesh-directory names on which the solver was invoked. -/
def process_configuration (c : ConfigDir) (outcome : String → Bool)
    (plotOk : Bool) : Bool × List String :=
  match validate_directory_structure c with
  | (false, _) => (false, [])
  | (true, dirs) =>
    match process_mesh_dirs outcome dirs with
    | (true, trace) => (plotOk, trace)
    | (false, trace) => (false, trace)

/-- `SU2Automation.run` (lines 179-190) as the process exit code:
`sys.exit(1)` when the configuration path does not exist, `sys.exit(1)` when
`process_configuration` returns `False`, and a normal return (process exit
code 0) otherwise.  No other exit code occurs in the program. -/
def runAutomation (configPathExists : Bool) (c : ConfigDir)
    (outcome : String → Bool) (plotOk : Bool) : Nat :=
  if !configPathExists then 1
  else if !(process_configuration c outcome plotOk).1 then 1
  else 0

/-! ### Characterisation lemmas for the validator -/

/-- The validation loop either accepts every candidate (returning them all,
in order) or returns `(false, [])`. -/
theorem validateMeshDirs_eq (ds : List MeshDir) :
    validateMeshDirs ds =
      if ds.all meshDirOk then (true, ds) else (false, []) := by
  induction ds with
  | nil => rfl
  | cons d rest ih =>
    cases hd : meshDirOk d <;>
      cases hr : rest.all meshDirOk <;>
        simp [validateMeshDirs, hd, hr, ih, List.all_cons]

/-- The per-directory check spelled out as the three exact-count
conditions. -/
theorem meshDirOk_true_iff (d : MeshDir) :
    meshDirOk d = true ↔
      cfgCount d.files = 1 ∧ meshCount d.files = 1 ∧ restartCount d.files = 1 := by
  simp [meshDirOk, and_assoc]

/-- Closed form of `validate_directory_structure`. -/
theorem validate_directory_structure_eq (c : ConfigDir) :
    validate_directory_structure c =
      if hasPlotPy c && !(meshDirsOf c).isEmpty && (meshDirsOf c).all meshDirOk
      then (true, meshDirsOf c) else (false, []) := by
  unfold validate_directory_structure
  cases hp : hasPlotPy c
  · simp
  · cases he : (meshDirsOf c).isEmpty
    · rw [validateMeshDirs_eq]
      simp
    · simp

/-! ### Concrete fixtures -/

/-- Mesh-directory content passing all three strict checks. -/
def okFiles : List String := ["Config.cfg", "grid.su2", "restart.dat"]

/-- A configuration directory whose mesh sub-directories are enumerated by
the OS in the order 093, 047, 185, all of them structurally valid. -/
def cfgUnsorted : ConfigDir :=
  ⟨[.file "Plot.py", .dir "093" okFiles, .dir "047" okFiles,
    .dir "185" okFiles]⟩

/-- A structurally valid configuration directory with one mesh directory. -/
def cfgOneMesh : ConfigDir := ⟨[.file "Plot.py", .dir "M" okFiles]⟩

/-- A configuration directory whose mesh directory has no mesh-geometry and
no restart file. -/
def cfgBadMesh : ConfigDir := ⟨[.file "Plot.py", .dir "M" ["Config.cfg"]]⟩

/-- A configuration directory with `Plot.py` but no sub-directories. -/
def cfgNoMesh : ConfigDir := ⟨[.file "Plot.py"]⟩

/-- A configuration directory with valid mesh directories but no `Plot.py`
entry. -/
def cfgNoPlotPy : ConfigDir := ⟨[.dir "M1" okFiles, .dir "M2" okFiles]⟩

/-- Three valid mesh directories A, B, C. -/
def cfgABC : ConfigDir :=
  ⟨[.file "Plot.py", .dir "A" okFiles, .dir "B" okFiles, .dir "C" okFiles]⟩

/-- Two valid mesh directories A, B. -/
def cfgAB : ConfigDir :=
  ⟨[.file "Plot.py", .dir "A" okFiles, .dir "B" okFiles]⟩

/-- Solver behaviour: the run in directory A fails, every other run
succeeds. -/
def failsInA : String → Bool := fun n => !(n == "A")

/-- Solver behaviour: the run in directory B fails, every other run
succeeds. -/
def failsInB : String → Bool := fun n => !(n == "B")

/-! ### Claims -/

/-- C1: in strict mode `validate_directory_structure` accepts a batch only
when every examined mesh sub-directory contains exactly one `Config.cfg`,
exactly one file with a mesh-geometry extension, and exactly one file with a
restart/reference extension; if any examined directory has any other count
(including zero) of any required kind, validation fails for the whole batch
and returns the empty mesh-directory list. -/
theorem validate_strict_exactly_one (c : ConfigDir) :
    ((validate_directory_structure c).1 = true →
      ∀ d ∈ meshDirsOf c,
        cfgCount d.files = 1 ∧ meshCount d.files = 1 ∧ restartCount d.files = 1)
    ∧ (∀ d ∈ meshDirsOf c,
        ¬(cfgCount d.files = 1 ∧ meshCount d.files = 1 ∧
          restartCount d.files = 1) →
        validate_directory_structure c = (false, [])) := by
  constructor
  · intro h d hd
    rw [validate_directory_structure_eq] at h
    split at h
    next hcond =>
      have hall : (meshDirsOf c).all meshDirOk = true := by
        simp only [Bool.and_eq_true] at hcond
        exact hcond.2
      exact (meshDirOk_true_iff d).mp (List.all_eq_true.mp hall d hd)
    next => simp at h
  · intro d hd hbad
    have hok : meshDirOk d = false := by
      cases h : meshDirOk d
      · rfl
      · exact absurd ((meshDirOk_true_iff d).mp h) hbad
    have hall : (meshDirsOf c).all meshDirOk = false := by
      cases hall : (meshDirsOf c).all meshDirOk
      · rfl
      · have := List.all_eq_true.mp hall d hd
        rw [hok] at this
        exact absurd this (by simp)
    rw [validate_directory_structure_eq, hall]
    simp

/-- C1 witness: the two halves applied to concrete directories — a valid
one-mesh configuration, and one whose mesh directory lacks the mesh and
restart files. -/
theorem validate_strict_exactly_one_witness :
    (∀ d ∈ meshDirsOf cfgOneMesh,
      cfgCount d.files = 1 ∧ meshCount d.files = 1 ∧ restartCount d.files = 1)
    ∧ validate_directory_structure cfgBadMesh = (false, []) :=
  ⟨(validate_strict_exactly_one cfgOneMesh).1 (by decide),
   (validate_strict_exactly_one cfgBadMesh).2 ⟨"M", ["Config.cfg"]⟩
     (by decide) (by decide)⟩

/-- C2 counterexample: with OS enumeration order 093, 047, 185 the validator
returns the mesh directories in that same order — not numerically sorted as
["047", "093", "185"]. -/
theorem validate_not_sorted_counterexample :
    (validate_directory_structure cfgUnsorted).1 = true
    ∧ (validate_directory_structure cfgUnsorted).2.map MeshDir.name
        = ["093", "047", "185"]
    ∧ (validate_directory_structure cfgUnsorted).2.map MeshDir.name
        ≠ ["047", "093", "185"] := by decide

/-- C2 amended: the validator applies no sorting at all — the returned mesh
directories are exactly the candidates in filesystem enumeration
(`iterdir`) order. -/
theorem validate_preserves_enumeration_order (c : ConfigDir)
    (h : (validate_directory_structure c).1 = true) :
    (validate_directory_structure c).2 = meshDirsOf c := by
  rw [validate_directory_structure_eq] at h ⊢
  split at h
  next hcond => rw [if_pos hcond]
  next => simp at h

/-- C2 witness: the amended claim at the concrete enumeration
093, 047, 185. -/
theorem validate_preserves_enumeration_order_witness :
    (validate_directory_structure cfgUnsorted).2 = meshDirsOf cfgUnsorted :=
  validate_preserves_enumeration_order cfgUnsorted (by decide)

/-- C3: when the solver exits 0 but no file matching a recognized output
extension (`*.vtu`, `*.csv`) exists in the mesh directory afterwards,
`run_su2_simulation` returns failure, never success. -/
theorem zero_exit_without_artifacts_fails (meshFiles filesAfter : List String)
    (stdout stderr : String)
    (h : globExt filesAfter ".vtu" = [] ∧ globExt filesAfter ".csv" = []) :
    (run_su2_simulation meshFiles (.completed 0 stdout stderr)
      filesAfter).success = false := by
  unfold run_su2_simulation
  simp only [globExt, List.filter_append] at *
  rw [h.1, h.2]
  decide

/-- C3 witness: a clean exit in a mesh directory holding only the input
files and a text history file is classified a failure. -/
theorem zero_exit_without_artifacts_fails_witness :
    (run_su2_simulation okFiles (.completed 0 "" "")
      ["Config.cfg", "grid.su2", "restart.dat", "history.txt"]).success
      = false :=
  zero_exit_without_artifacts_fails okFiles
    ["Config.cfg", "grid.su2", "restart.dat", "history.txt"] "" "" (by decide)

/-- C4 counterexample: with mesh directories A, B, C and the solver failing
in A, the batch aborts — but the complete record the code produces for the
batch is the pair `(False, trace)` with the solver invoked only on A; no
outcome of any kind (in particular no `Skipped`) is recorded for the
unattempted directories B and C. -/
theorem abort_records_nothing_counterexample :
    process_configuration cfgABC failsInA true = (false, ["A"])
    ∧ "B" ∉ (process_configuration cfgABC failsInA true).2
    ∧ "C" ∉ (process_configuration cfgABC failsInA true).2 := by decide

/-- C4 amended: under the abort-on-first-failure behaviour the first failed
run stops the batch immediately — the loop returns `False` having invoked
the solver exactly on the directories up to and including the first failing
one; no later directory is executed and no outcome is recorded for it. -/
theorem abort_on_first_failure (outcome : String → Bool)
    (pre post : List MeshDir) (bad : MeshDir)
    (hpre : ∀ d ∈ pre, outcome d.name = true)
    (hbad : outcome bad.name = false) :
    process_mesh_dirs outcome (pre ++ bad :: post)
      = (false, pre.map MeshDir.name ++ [bad.name]) := by
  induction pre with
  | nil => simp [process_mesh_dirs, hbad]
  | cons d rest ih =>
    have hd : outcome d.name = true := hpre d (by simp)
    have ih' := ih (fun d hd => hpre d (List.mem_cons_of_mem _ hd))
    simp [process_mesh_dirs, hd, ih']

/-- C4 witness: the amended claim at a concrete batch X, A, Y with the
failure in A. -/
theorem abort_on_first_failure_witness :
    process_mesh_dirs failsInA
      ([⟨"X", okFiles⟩] ++ ⟨"A", okFiles⟩ :: [⟨"Y", okFiles⟩])
      = (false, [MeshDir.mk "X" okFiles].map MeshDir.name ++ ["A"]) :=
  abort_on_first_failure failsInA [⟨"X", okFiles⟩] [⟨"Y", okFiles⟩]
    ⟨"A", okFiles⟩ (by decide) (by decide)

/-- C5 counterexample: a timeout from which no partial stdout was captured
is a non-success terminal state of `run_su2_simulation` that persists no log
file at all. -/
theorem timeout_without_stdout_no_log_counterexample :
    (run_su2_simulation okFiles (.timedOut none) okFiles).success = false
    ∧ (run_su2_simulation okFiles (.timedOut none) okFiles).logsWritten
        = [] := by decide

/-- C5 amended: every terminal state of `run_su2_simulation` persists a log
file except a timeout whose captured stdout is absent or empty — exactly in
that case the call returns with no log artifact on disk. -/
theorem run_logs_written_iff (meshFiles filesAfter : List String)
    (res : ProcResult) :
    (run_su2_simulation meshFiles res filesAfter).logsWritten = []
      ↔ res = .timedOut none ∨ res = .timedOut (some "") := by
  cases res with
  | completed code out err => cases code <;> simp [run_su2_simulation]
  | timedOut o =>
    cases o with
    | none => simp [run_su2_simulation]
    | some s =>
      by_cases hs : s = "" <;> simp [run_su2_simulation, hs]

/-- C6: `run_plot_script` declares success only when at least one image
artifact (`*.png`, `*.pdf`) exists where it looks — the top level of the
configuration directory; in particular a plotting process that exits 0
having written its images only into the `plots` sub-directory is classified
a failure, because the non-recursive glob does not see them. -/
theorem plot_success_requires_artifact (res : PlotProcResult)
    (entriesAfter : List Entry) :
    ((run_plot_script res entriesAfter).success = true →
      globEntriesExt entriesAfter ".png" ++ globEntriesExt entriesAfter ".pdf"
        ≠ [])
    ∧ (run_plot_script (.completed 0 "" "")
        [.file "Plot.py", .dir "plots" ["profile_x1mm.png", "profile_x2mm.png"],
         .file "plot_output.log"]).success = false := by
  constructor
  · intro h
    cases res with
    | completed code out err =>
      cases code with
      | zero =>
        unfold run_plot_script at h
        simp only [globEntriesExt, List.filter_append] at h ⊢
        intro hemp
        rw [List.append_eq_nil] at hemp
        rw [hemp.1, hemp.2] at h
        simp at h
        revert h
        decide
      | succ n =>
        unfold run_plot_script at h
        simp at h
  · decide

/-- C6 witness: the implication applied to a run that exits 0 with a
top-level image present. -/
theorem plot_success_requires_artifact_witness :
    globEntriesExt [Entry.file "profile.png"] ".png"
      ++ globEntriesExt [Entry.file "profile.png"] ".pdf" ≠ [] :=
  (plot_success_requires_artifact (.completed 0 "" "")
    [Entry.file "profile.png"]).1 (by decide)

/-- C7 counterexample: in a batch where mesh directory A succeeds and B
fails, the process exits with code 1, not 2 — the program has no partial-
success exit code. -/
theorem exit_code_no_partial_counterexample :
    failsInB "A" = true ∧ failsInB "B" = false
    ∧ (process_configuration cfgAB failsInB true).2 = ["A", "B"]
    ∧ runAutomation true cfgAB failsInB true = 1
    ∧ runAutomation true cfgAB failsInB true ≠ 2 := by decide

/-- C7 amended: the orchestrator's exit code is always 0 or 1 — 0 exactly on
full success (path found, validation passed, every simulation and the plot
step succeeded) and 1 on any failure; no exit code 2 exists. -/
theorem exit_codes (pe : Bool) (c : ConfigDir) (outcome : String → Bool)
    (plotOk : Bool) :
    (runAutomation pe c outcome plotOk = 0
      ∨ runAutomation pe c outcome plotOk = 1)
    ∧ (runAutomation pe c outcome plotOk = 0
        ↔ pe = true ∧ (process_configuration c outcome plotOk).1 = true) := by
  cases pe
  · simp [runAutomation]
  · cases h : (process_configuration c outcome plotOk).1 <;>
      simp [runAutomation, h]

/-- C8: a validation failure aborts the whole invocation before any solver
is launched — with zero mesh sub-directories validation fails, and whenever
validation fails `process_configuration` returns failure with an empty
solver-invocation trace (the batch loop is never entered). -/
theorem validation_failure_aborts (c : ConfigDir) (outcome : String → Bool)
    (plotOk : Bool) :
    (meshDirsOf c = [] → (validate_directory_structure c).1 = false)
    ∧ ((validate_directory_structure c).1 = false →
        process_configuration c outcome plotOk = (false, [])) := by
  constructor
  · intro h
    rw [validate_directory_structure_eq]
    simp [h]
  · intro h
    unfold process_configuration
    cases hv : validate_directory_structure c with
    | mk ok dirs =>
      rw [hv] at h
      cases ok
      · rfl
      · exact absurd h (by simp)

/-- C8 witness: both halves at the configuration directory that has
`Plot.py` but no sub-directories. -/
theorem validation_failure_aborts_witness :
    (validate_directory_structure cfgNoMesh).1 = false
    ∧ process_configuration cfgNoMesh (fun _ => true) true = (false, []) :=
  ⟨(validation_failure_aborts cfgNoMesh (fun _ => true) true).1 (by decide),
   (validation_failure_aborts cfgNoMesh (fun _ => true) true).2
     ((validation_failure_aborts cfgNoMesh (fun _ => true) true).1
       (by decide))⟩

/-- C9 counterexample: for a mesh directory that contains no `Config.cfg`,
`run_su2_simulation` still launches the external solver — it performs no
defensive precondition check before `subprocess.run`. -/
theorem runner_no_precondition_check_counterexample :
    "Config.cfg" ∉ ["grid.su2", "restart.dat"]
    ∧ (run_su2_simulation ["grid.su2", "restart.dat"] (.completed 0 "" "")
        ["grid.su2", "restart.dat"]).solverLaunched = true := by decide

/-- C9 amended: `run_su2_simulation` does not re-check its precondition —
even when the configuration file is absent from the mesh directory, the
external solver process is launched unconditionally. -/
theorem solver_launched_without_config (meshFiles filesAfter : List String)
    (res : ProcResult) (h : "Config.cfg" ∉ meshFiles) :
    (run_su2_simulation meshFiles res filesAfter).solverLaunched = true := by
  cases res with
  | completed code out err => cases code <;> rfl
  | timedOut o => rfl

/-- C9 witness: the amended claim at a mesh directory holding only a
geometry file. -/
theorem solver_launched_without_config_witness :
    (run_su2_simulation ["grid.su2"] (.timedOut none) []).solverLaunched
      = true :=
  solver_launched_without_config ["grid.su2"] [] (.timedOut none) (by decide)

/-- C10: a configuration directory with no entry named `Plot.py` always
fails validation with the empty mesh-directory list, regardless of its
mesh sub-directories. -/
theorem validate_requires_plot_py (c : ConfigDir)
    (h : ∀ e ∈ c.entries, Entry.name e ≠ "Plot.py") :
    validate_directory_structure c = (false, []) := by
  have hp : hasPlotPy c = false := by
    cases hp : hasPlotPy c
    · rfl
    · obtain ⟨e, he, hname⟩ :=
        by simpa [hasPlotPy, List.any_eq_true] using hp
      exact absurd hname (h e he)
  unfold validate_directory_structure
  rw [hp]
  rfl

/-- C10 witness: a configuration directory whose two mesh sub-directories
are structurally perfect still fails validation for lack of `Plot.py`. -/
theorem validate_requires_plot_py_witness :
    validate_directory_structure cfgNoPlotPy = (false, [])
    ∧ (meshDirsOf cfgNoPlotPy).all meshDirOk = true :=
  ⟨validate_requires_plot_py cfgNoPlotPy (by decide), by decide⟩

end SU2Automation
